import Mathlib

/-!
Verification of the voice-concurrency test harness (`testing/voice_test.spec.ts`).
The repository file contains two successive variants of the harness; definitions
suffixed `1` embed the first variant, suffix `2` the second.  Machine time is
modelled in milliseconds as `Nat`; a polling loop observes the directory as a
function from poll index to its listing, poll `n` of variant 1 happening at
elapsed time `n * 50` (its `setTimeout` interval) and of variant 2 at `n * 25`.
-/

namespace VoiceTest

/-- Directory constants from the source (`path.resolve` prefixes elided). -/
def speechDir : String := "./backend/data/cache/audio/speech"

def transcriptDir : String := "./backend/data/cache/audio/transcriptions"

def testingDir : String := "./testing/data"

/-- Content of the `Timeout: ... files not found in ... within ...ms` error
message thrown by `waitForFileCount`: the target count, the directory path and
the configured timeout parameter (the message interpolates the `timeout`
argument, not the measured elapsed time). -/
structure TimeoutError where
  targetCount : Nat
  dirPath : String
  timeoutMs : Nat
  deriving Repr, DecidableEq

/-- Loop body of the first variant's `waitForFileCount` (lines 21-31): poll `n`
lists the directory, returns when the raw entry count reaches `targetCount`
(no suffix filter in this variant), throws once elapsed time exceeds `timeout`,
otherwise sleeps 50ms and repeats.  The result carries the elapsed time at
return or at throw as an observation (the source returns `void`). -/
def waitForFileCount1Loop (dir : Nat → List String) (dirPath : String)
    (targetCount timeout : Nat) (n : Nat) : Except (TimeoutError × Nat) Nat :=
  if targetCount ≤ (dir n).length then .ok (n * 50)
  else if timeout < n * 50 then .error (⟨targetCount, dirPath, timeout⟩, n * 50)
  else waitForFileCount1Loop dir dirPath targetCount timeout (n + 1)
termination_by timeout + 50 - n * 50
decreasing_by simp_wf; omega

/-- First variant's `waitForFileCount`, started at poll 0. -/
def waitForFileCount1 (dir : Nat → List String) (dirPath : String)
    (targetCount timeout : Nat) : Except (TimeoutError × Nat) Nat :=
  waitForFileCount1Loop dir dirPath targetCount timeout 0

/-- The artifact filter of the second variant: `file.endsWith('.json')`.
String suffix testing is modelled on the underlying character lists (this is
what `endsWith` computes) so that it evaluates inside the kernel. -/
def isJson (f : String) : Bool := ".json".data.isSuffixOf f.data

/-- Loop body of the second variant's `waitForFileCount` (lines 124-135): the
listing is filtered to `.json` files, the success test is strict equality
`files.length == targetCount`, and the sleep interval is 25ms. -/
def waitForFileCount2Loop (dir : Nat → List String) (dirPath : String)
    (targetCount timeout : Nat) (n : Nat) : Except (TimeoutError × Nat) Nat :=
  if ((dir n).filter isJson).length = targetCount then .ok (n * 25)
  else if timeout < n * 25 then .error (⟨targetCount, dirPath, timeout⟩, n * 25)
  else waitForFileCount2Loop dir dirPath targetCount timeout (n + 1)
termination_by timeout + 25 - n * 25
decreasing_by simp_wf; omega

/-- Second variant's `waitForFileCount`, started at poll 0. -/
def waitForFileCount2 (dir : Nat → List String) (dirPath : String)
    (targetCount timeout : Nat) : Except (TimeoutError × Nat) Nat :=
  waitForFileCount2Loop dir dirPath targetCount timeout 0

/-- Removal of a snapshot of names from a directory listing: `clearDir` lists
the directory once and then `rm`s every listed entry (no suffix filter). -/
def removeAll (dir names : List String) : List String :=
  dir.filter (fun f => !names.contains f)

/-- Directory contents immediately after `clearDir` (both variants remove
every entry returned by `readdir`). -/
def clearDirResult (dir : List String) : List String := removeAll dir dir

theorem clearDirResult_eq_nil (dir : List String) : clearDirResult dir = [] := by
  simp [clearDirResult, removeAll, List.filter_eq_nil_iff]

/-- If every poll of the first variant sees fewer entries than the target, the
loop throws with the configured-timeout message at elapsed `50 * (t / 50 + 1)`,
the first poll instant strictly past the deadline. -/
theorem wfc1Loop_fail (dir : Nat → List String) (p : String) (k t : Nat)
    (hd : ∀ n, (dir n).length < k) :
    ∀ fuel n, t / 50 + 1 - n ≤ fuel → n ≤ t / 50 + 1 →
      waitForFileCount1Loop dir p k t n = .error (⟨k, p, t⟩, 50 * (t / 50 + 1)) := by
  intro fuel
  induction fuel with
  | zero =>
    intro n h1 h2
    have hn : n = t / 50 + 1 := by omega
    subst hn
    unfold waitForFileCount1Loop
    rw [if_neg (by have := hd (t / 50 + 1); omega)]
    rw [if_pos (by omega)]
    rw [Nat.mul_comm]
  | succ fuel ih =>
    intro n h1 h2
    by_cases hn : n = t / 50 + 1
    · subst hn
      unfold waitForFileCount1Loop
      rw [if_neg (by have := hd (t / 50 + 1); omega)]
      rw [if_pos (by omega)]
      rw [Nat.mul_comm]
    · have hn2 : n ≤ t / 50 := by omega
      unfold waitForFileCount1Loop
      rw [if_neg (by have := hd n; omega)]
      rw [if_neg (by omega)]
      exact ih (n + 1) (by omega) (by omega)

/-- Top-level form of `wfc1Loop_fail`. -/
theorem wfc1_fail (dir : Nat → List String) (p : String) (k t : Nat)
    (hd : ∀ n, (dir n).length < k) :
    waitForFileCount1 dir p k t = .error (⟨k, p, t⟩, 50 * (t / 50 + 1)) :=
  wfc1Loop_fail dir p k t hd (t / 50 + 1) 0 (by omega) (by omega)

/-- If every poll of the second variant sees a filtered count different from
the target (including strictly larger), the loop throws with the
configured-timeout message at elapsed `25 * (t / 25 + 1)`. -/
theorem wfc2Loop_fail (dir : Nat → List String) (p : String) (k t : Nat)
    (hd : ∀ n, ((dir n).filter isJson).length ≠ k) :
    ∀ fuel n, t / 25 + 1 - n ≤ fuel → n ≤ t / 25 + 1 →
      waitForFileCount2Loop dir p k t n = .error (⟨k, p, t⟩, 25 * (t / 25 + 1)) := by
  intro fuel
  induction fuel with
  | zero =>
    intro n h1 h2
    have hn : n = t / 25 + 1 := by omega
    subst hn
    unfold waitForFileCount2Loop
    rw [if_neg (hd (t / 25 + 1))]
    rw [if_pos (by omega)]
    rw [Nat.mul_comm]
  | succ fuel ih =>
    intro n h1 h2
    by_cases hn : n = t / 25 + 1
    · subst hn
      unfold waitForFileCount2Loop
      rw [if_neg (hd (t / 25 + 1))]
      rw [if_pos (by omega)]
      rw [Nat.mul_comm]
    · have hn2 : n ≤ t / 25 := by omega
      unfold waitForFileCount2Loop
      rw [if_neg (hd n)]
      rw [if_neg (by omega)]
      exact ih (n + 1) (by omega) (by omega)

/-- Top-level form of `wfc2Loop_fail`. -/
theorem wfc2_fail (dir : Nat → List String) (p : String) (k t : Nat)
    (hd : ∀ n, ((dir n).filter isJson).length ≠ k) :
    waitForFileCount2 dir p k t = .error (⟨k, p, t⟩, 25 * (t / 25 + 1)) :=
  wfc2Loop_fail dir p k t hd (t / 25 + 1) 0 (by omega) (by omega)

/-- A first poll that already meets the first variant's test returns at once. -/
theorem wfc1_ok (dir : Nat → List String) (p : String) (k t : Nat)
    (hd : k ≤ (dir 0).length) : waitForFileCount1 dir p k t = .ok 0 := by
  unfold waitForFileCount1 waitForFileCount1Loop
  rw [if_pos hd]

/-- A first poll that already meets the second variant's test returns at once. -/
theorem wfc2_ok (dir : Nat → List String) (p : String) (k t : Nat)
    (hd : ((dir 0).filter isJson).length = k) :
    waitForFileCount2 dir p k t = .ok 0 := by
  unfold waitForFileCount2 waitForFileCount2Loop
  rw [if_pos hd]

/-- C2 (amended): on a static directory, the first variant returns exactly when
the raw (unfiltered) entry count is at least the target, while the second
variant returns exactly when the `.json`-filtered count equals the target
exactly; in every other case, including a filtered count strictly exceeding the
target in the second variant, the call polls until the deadline and throws. -/
theorem wfc_static_characterization (d : List String) (p : String) (k t : Nat) :
    waitForFileCount1 (fun _ => d) p k t
        = (if k ≤ d.length then .ok 0 else .error (⟨k, p, t⟩, 50 * (t / 50 + 1)))
    ∧ waitForFileCount2 (fun _ => d) p k t
        = (if (d.filter isJson).length = k then .ok 0
           else .error (⟨k, p, t⟩, 25 * (t / 25 + 1))) := by
  constructor
  · by_cases h : k ≤ d.length
    · rw [if_pos h]
      exact wfc1_ok _ p k t h
    · rw [if_neg h]
      exact wfc1_fail _ p k t (fun n => by omega)
  · by_cases h : (d.filter isJson).length = k
    · rw [if_pos h]
      exact wfc2_ok _ p k t h
    · rw [if_neg h]
      exact wfc2_fail _ p k t (fun n => h)

/-- C2 counterexample: a directory holding 3 matching `.json` files, strictly
more than the target 2, makes the second variant's `waitForFileCount` time out
(error at elapsed 125 with timeout 100) instead of returning. -/
theorem wfc2_excess_times_out :
    ((["a.json", "b.json", "c.json"].filter isJson).length = 3)
    ∧ waitForFileCount2 (fun _ => ["a.json", "b.json", "c.json"]) "dir" 2 100
        = .error (⟨2, "dir", 100⟩, 125) := by
  constructor
  · decide
  · have h := wfc2_fail (fun _ => ["a.json", "b.json", "c.json"]) "dir" 2 100
      (fun _ => (by decide :
        ((["a.json", "b.json", "c.json"].filter isJson).length ≠ 2)))
    norm_num at h
    exact h

/-- C3 (amended): when the count never reaches the success condition, each
variant of `waitForFileCount` never returns normally: it throws a timeout
error carrying the directory, the target and the configured timeout parameter
(not the measured elapsed time), at the first poll strictly past the deadline,
hence later than `timeout` but within one polling interval of it. -/
theorem wfc_timeout_behavior (dir1 dir2 : Nat → List String) (p : String)
    (k t : Nat) (h1 : ∀ n, (dir1 n).length < k)
    (h2 : ∀ n, ((dir2 n).filter isJson).length ≠ k) :
    (waitForFileCount1 dir1 p k t = .error (⟨k, p, t⟩, 50 * (t / 50 + 1))
      ∧ t < 50 * (t / 50 + 1) ∧ 50 * (t / 50 + 1) ≤ t + 50)
    ∧ (waitForFileCount2 dir2 p k t = .error (⟨k, p, t⟩, 25 * (t / 25 + 1))
      ∧ t < 25 * (t / 25 + 1) ∧ 25 * (t / 25 + 1) ≤ t + 25) :=
  ⟨⟨wfc1_fail dir1 p k t h1, by omega, by omega⟩,
   ⟨wfc2_fail dir2 p k t h2, by omega, by omega⟩⟩

/-- Witness for `wfc_timeout_behavior`: one matching file, target 2,
timeout 100ms. -/
theorem wfc_timeout_behavior_witness :
    (waitForFileCount1 (fun _ => ["only.json"]) "d" 2 100
        = .error (⟨2, "d", 100⟩, 50 * (100 / 50 + 1))
      ∧ 100 < 50 * (100 / 50 + 1) ∧ 50 * (100 / 50 + 1) ≤ 100 + 50)
    ∧ (waitForFileCount2 (fun _ => ["only.json"]) "d" 2 100
        = .error (⟨2, "d", 100⟩, 25 * (100 / 25 + 1))
      ∧ 100 < 25 * (100 / 25 + 1) ∧ 25 * (100 / 25 + 1) ≤ 100 + 25) :=
  wfc_timeout_behavior (fun _ => ["only.json"]) (fun _ => ["only.json"]) "d" 2 100
    (fun _ => (by decide : (["only.json"] : List String).length < 2))
    (fun _ => (by decide : ((["only.json"].filter isJson).length ≠ 2)))

/-- C3 counterexample: with 1 matching file, target 2 and timeout 100ms, the
throw happens at elapsed 150ms but the error's time field holds the configured
timeout 100, not the elapsed time — the message does not carry the actual
elapsed time. -/
theorem wfc_timeout_message_not_elapsed :
    waitForFileCount1 (fun _ => ["only.json"]) "d" 2 100
        = .error (⟨2, "d", 100⟩, 150)
    ∧ TimeoutError.timeoutMs ⟨2, "d", 100⟩ ≠ 150 := by
  constructor
  · have h := wfc1_fail (fun _ => ["only.json"]) "d" 2 100
      (fun _ => (by decide : (["only.json"] : List String).length < 2))
    norm_num at h
    exact h
  · decide

/-- An entry of the in-page `__speechLog`: second-variant entries are
`{event, text, time}` (first-variant entries lack `text`, unused downstream). -/
structure SpeechEvent where
  event : String
  text : String
  time : Nat
  deriving Repr, DecidableEq

/-- The per-session artifact path `${testingDir}/${index}-speech-timing.json`,
a function of the session index alone. -/
def timingPath (i : Nat) : String :=
  testingDir ++ "/" ++ toString i ++ "-speech-timing.json"

/-- Filesystem view used by the aggregator and comparator: a map from path to
the (parsed) log stored there, `none` when the file does not exist.  The
`JSON.stringify` / `JSON.parse` round trip is abstracted away. -/
def FileStore : Type := String → Option (List SpeechEvent)

/-- The `fs.writeFileSync(path.join(testingDir, index-speech-timing.json),
JSON.stringify(log))` call of line 225: stores the whole serialized log at the
index-determined path, replacing any previous content. -/
def persist (fsys : FileStore) (i : Nat) (log : List SpeechEvent) : FileStore :=
  fun q => if q = timingPath i then some log else fsys q

/-- Possible failures of the serial `afterAll("compare timing")` block: a
`readFileSync` throw naming a missing per-session artifact, or the TypeError
raised by `timings[i][0].time` when a log array is empty. -/
inductive CompareError where
  | missingArtifact (path : String)
  | typeError
  deriving Repr, DecidableEq

/-- The serial comparator (lines 232-243).  The `for` loop over the two logins
reads `${testingDir}/${i}-speech-timing.json` for i = 0 then i = 1 (unrolled
here, the login list having fixed length 2), throwing on a missing file; the
verdict then compares `timings[0][0].time` and `timings[1][0].time` — the
first array element of each log, whatever its event type — against the
threshold 500 with `Math.abs(... ) < 500`. -/
def compareTiming (fsys : FileStore) : Except CompareError String :=
  match fsys (timingPath 0) with
  | none => .error (.missingArtifact (timingPath 0))
  | some t0 =>
    match fsys (timingPath 1) with
    | none => .error (.missingArtifact (timingPath 1))
    | some t1 =>
      match t0, t1 with
      | e0 :: _, e1 :: _ =>
        .ok (if max e0.time e1.time - min e0.time e1.time < 500 then
              "Speech to text and TTS concurrent"
             else "Speech to text and TTS not concurrent")
      | _, _ => .error .typeError

/-- True exactly when the comparator produced a verdict. -/
def isVerdict : Except CompareError String → Bool
  | .ok _ => true
  | .error _ => false

/-- Modelled from the spec: the timestamp of a log's first `start` event,
which §4.5 says the comparator uses (for comparison with `compareTiming`,
which uses the first event regardless of type). -/
def firstStartTime (log : List SpeechEvent) : Option Nat :=
  (log.find? (fun e => e.event == "start")).map SpeechEvent.time

/-- Modelled from the spec: the verdict §4.5 prescribes, from the first-start
timestamps of the two logs and a threshold. -/
def specVerdict (log0 log1 : List SpeechEvent) (threshold : Nat) : Option String :=
  match firstStartTime log0, firstStartTime log1 with
  | some t0, some t1 =>
      some (if max t0 t1 - min t0 t1 < threshold then
              "Speech to text and TTS concurrent"
            else "Speech to text and TTS not concurrent")
  | _, _ => none

/-- Abstract steps of the harness scripts, listed in program order. -/
inductive Action where
  | clearDirOf (dir : String)
  | mkdirTesting
  | onConsole
  | installBridge
  | installAudioLog
  | gotoAuth
  | fillEmail
  | fillPassword
  | clickSignIn
  | clickNewChat
  | clickCall
  | waitTimeout (ms : Nat)
  | waitFiles (dir : String) (target : Nat) (timeout : Nat)
  | waitSpeechEvents (n : Nat)
  | evalPullLog
  | persist (idx : Nat)
  deriving Repr, DecidableEq

/-- Success-path step sequence of one first-variant session (lines 43-101,
`API_TTS = false` branch): the two shared directories are cleared inside the
session body itself, and navigation precedes the `page.evaluate` that wraps
`speechSynthesis.speak`.  The body does not depend on the session index
(credentials aside), and it persists no timing log. -/
def sessionTrace1 : List Action :=
  [.clearDirOf speechDir, .clearDirOf transcriptDir, .gotoAuth, .fillEmail,
   .fillPassword, .clickSignIn, .clickNewChat, .clickCall, .waitTimeout 6000,
   .waitFiles transcriptDir 1 10000, .waitFiles transcriptDir 2 10000,
   .waitTimeout 10000, .installBridge, .waitSpeechEvents 2, .waitTimeout 10000]

/-- Steps of the second variant's `clearDir` call on one directory: the
`readdir` snapshot, `mkdir(testingDir, recursive)`, then removal of the
listed entries. -/
def clearDirActions2 (d : String) : List Action := [.mkdirTesting, .clearDirOf d]

/-- The second variant's `test.beforeAll` hook (lines 144-147). -/
def beforeAllTrace2 : List Action :=
  clearDirActions2 speechDir ++ clearDirActions2 transcriptDir

/-- Success-path step sequence of one second-variant session (lines 152-227,
`API_TTS = false` branch): both `addInitScript` installations precede
`page.goto`, and the single `fs.writeFileSync` persist happens after the
awaits, before the final settle delay. -/
def sessionTrace2 (i : Nat) : List Action :=
  [.onConsole, .installBridge, .installAudioLog, .gotoAuth, .fillEmail,
   .fillPassword, .clickSignIn, .clickNewChat, .clickCall,
   .waitFiles transcriptDir 2 45000, .waitSpeechEvents 1, .evalPullLog,
   .persist i, .waitTimeout 3000]

/-- A Playwright worker runs the file's `beforeAll` hook, then its test body. -/
def workerTrace2 (i : Nat) : List Action := beforeAllTrace2 ++ sessionTrace2 i

/-- Recognizes the shared-directory clearing steps. -/
def isClearAction : Action → Bool
  | .clearDirOf _ => true
  | _ => false

/-- Recognizes the timing-log persist step. -/
def isPersistAction : Action → Bool
  | .persist _ => true
  | _ => false

/-- Per-utterance handler state under the first variant's wrapper (lines
84-92): `utterance.onstart` / `utterance.onend` are single-slot handler
properties, and each call of the wrapped `speak` assigns (overwrites) both.
A slot that is set pushes exactly one log entry when its event fires. -/
structure UttHandlers1 where
  onstartSet : Bool
  onendSet : Bool
  deriving Repr, DecidableEq

/-- One invocation of the first variant's wrapped `speechSynthesis.speak` on
an utterance: assigns both handler properties. -/
def speak1 (_u : UttHandlers1) : UttHandlers1 := ⟨true, true⟩

/-- Log entries pushed when the utterance's `start` event fires once. -/
def startEventsPerFire1 (u : UttHandlers1) : Nat := if u.onstartSet then 1 else 0

/-- Log entries pushed when the utterance's `end` event fires once. -/
def endEventsPerFire1 (u : UttHandlers1) : Nat := if u.onendSet then 1 else 0

/-- Per-utterance listener state under the second variant's wrapper (lines
161-170): each call of the wrapped `speak` registers a fresh pair of `start` /
`end` listeners with `addEventListener` (distinct closures, so no
deduplication applies); every registered listener pushes one entry per fire. -/
structure UttHandlers2 where
  startListeners : Nat
  endListeners : Nat
  deriving Repr, DecidableEq

/-- One invocation of the second variant's wrapped `speechSynthesis.speak`. -/
def speak2 (u : UttHandlers2) : UttHandlers2 :=
  ⟨u.startListeners + 1, u.endListeners + 1⟩

/-- Log entries pushed when the utterance's `start` event fires once. -/
def startEventsPerFire2 (u : UttHandlers2) : Nat := u.startListeners

/-- Log entries pushed when the utterance's `end` event fires once. -/
def endEventsPerFire2 (u : UttHandlers2) : Nat := u.endListeners

theorem speak1_iterate (m : Nat) : speak1^[m] ⟨true, true⟩ = ⟨true, true⟩ := by
  induction m with
  | zero => rfl
  | succ m ih =>
    rw [Function.iterate_succ_apply]
    exact ih

theorem speak2_iterate (m a b : Nat) :
    speak2^[m] ⟨a, b⟩ = ⟨a + m, b + m⟩ := by
  induction m generalizing a b with
  | zero => rfl
  | succ m ih =>
    rw [Function.iterate_succ_apply]
    rw [show speak2 ⟨a, b⟩ = ⟨a + 1, b + 1⟩ from rfl]
    rw [ih]
    simp [UttHandlers2.mk.injEq]
    omega

/-- C4 counterexample: the first variant performs the clearing operations on
both shared artifact directories inside each session body itself, the first
two steps of every session. -/
theorem clear_inside_session_v1 :
    Action.clearDirOf speechDir ∈ sessionTrace1
    ∧ Action.clearDirOf transcriptDir ∈ sessionTrace1
    ∧ sessionTrace1.filter isClearAction
        = [.clearDirOf speechDir, .clearDirOf transcriptDir] := by
  decide

/-- C4 (amended): in the second variant every clearing operation sits in the
`beforeAll` hook, which a worker runs before any step of its session bodies;
each shared directory is cleared exactly once there and never inside a
session.  In the first variant, by contrast, each session clears both shared
directories inside its own body, so clearing happens once per session and
races with sibling sessions. -/
theorem clear_once_before_sessions (i : Nat) :
    (sessionTrace2 i).filter isClearAction = []
    ∧ beforeAllTrace2.filter isClearAction
        = [.clearDirOf speechDir, .clearDirOf transcriptDir]
    ∧ (workerTrace2 i).filter isClearAction = beforeAllTrace2.filter isClearAction
    ∧ workerTrace2 i = beforeAllTrace2 ++ sessionTrace2 i
    ∧ sessionTrace1.filter isClearAction
        = [.clearDirOf speechDir, .clearDirOf transcriptDir] := by
  have h2 : (sessionTrace2 i).filter isClearAction = [] := rfl
  refine ⟨h2, by decide, ?_, rfl, by decide⟩
  rw [workerTrace2, List.filter_append, h2, List.append_nil]

/-- C7 counterexample: in the first variant the bridge wrapper is installed by
a `page.evaluate` that runs only after `page.goto` — navigation strictly
precedes installation. -/
theorem bridge_after_nav_v1 :
    Action.gotoAuth ∈ sessionTrace1
    ∧ Action.installBridge ∈ sessionTrace1
    ∧ sessionTrace1.indexOf Action.gotoAuth
        < sessionTrace1.indexOf Action.installBridge := by
  decide

/-- C7 (amended): the second variant installs the Instrumentation Bridge via
`addInitScript` strictly before navigation in every session; the first variant
installs it only after navigation (indeed after the call has begun), so
utterances played before that point are missed from its in-session log. -/
theorem bridge_before_nav (i : Nat) :
    (sessionTrace2 i).indexOf Action.installBridge
        < (sessionTrace2 i).indexOf Action.gotoAuth
    ∧ (sessionTrace2 i)[1]? = some Action.installBridge
    ∧ (sessionTrace2 i)[3]? = some Action.gotoAuth
    ∧ sessionTrace1.indexOf Action.gotoAuth
        < sessionTrace1.indexOf Action.installBridge := by
  have e1 : (sessionTrace2 i).indexOf Action.installBridge = 1 := rfl
  have e2 : (sessionTrace2 i).indexOf Action.gotoAuth = 3 := rfl
  refine ⟨?_, rfl, rfl, by decide⟩
  rw [e1, e2]
  omega

/-- C6 counterexample: under the second variant's wrapper, two invocations of
the wrapped entry point on one utterance register two listener pairs, so a
single playback of that utterance logs two start and two end events, not one. -/
theorem double_speak_double_events_v2 :
    startEventsPerFire2 (speak2 (speak2 ⟨0, 0⟩)) = 2
    ∧ endEventsPerFire2 (speak2 (speak2 ⟨0, 0⟩)) = 2 := by
  decide

/-- C6 (amended): with the first variant's wrapper an utterance spoken once
logs exactly one start and one end event however many times the wrapped entry
point was invoked for it, the handler properties being overwritten on each
invocation; with the second variant's wrapper, k invocations accumulate k
listener pairs, so a single playback logs k start and k end events. -/
theorem bridge_events_per_invocation (k : Nat) (hk : 1 ≤ k) :
    startEventsPerFire1 (speak1^[k] ⟨false, false⟩) = 1
    ∧ endEventsPerFire1 (speak1^[k] ⟨false, false⟩) = 1
    ∧ startEventsPerFire2 (speak2^[k] ⟨0, 0⟩) = k
    ∧ endEventsPerFire2 (speak2^[k] ⟨0, 0⟩) = k := by
  obtain ⟨m, rfl⟩ : ∃ m, k = m + 1 := ⟨k - 1, by omega⟩
  have hs1 : speak1^[m + 1] ⟨false, false⟩ = ⟨true, true⟩ := by
    rw [Function.iterate_succ_apply]
    exact speak1_iterate m
  have hs2 : speak2^[m + 1] ⟨0, 0⟩ = ⟨m + 1, m + 1⟩ := by
    rw [speak2_iterate]
    simp [UttHandlers2.mk.injEq]
  rw [hs1, hs2]
  refine ⟨rfl, rfl, rfl, rfl⟩

/-- Witness for `bridge_events_per_invocation` at k = 3. -/
theorem bridge_events_per_invocation_witness :
    startEventsPerFire1 (speak1^[3] ⟨false, false⟩) = 1
    ∧ endEventsPerFire1 (speak1^[3] ⟨false, false⟩) = 1
    ∧ startEventsPerFire2 (speak2^[3] ⟨0, 0⟩) = 3
    ∧ endEventsPerFire2 (speak2^[3] ⟨0, 0⟩) = 3 :=
  bridge_events_per_invocation 3 (by omega)

/-- C8: for every directory listing, whatever mixed extensions it holds,
listing the directory immediately after `clearDir` and filtering by the
artifact suffix yields a count of 0 — `clearDir` removes every snapshot entry. -/
theorem clearDir_filtered_count_zero (dir : List String) :
    ((clearDirResult dir).filter isJson).length = 0 := by
  rw [clearDirResult_eq_nil]
  rfl

/-- C9: `persist` stores the whole serialized log at the path determined by
the session index alone, leaves every other path untouched, and a later call
for the same index replaces the prior artifact entirely (no appending); in the
second variant's session script it is executed exactly once, positioned after
the session's interaction and collection steps, and the storage directory is
pre-created by the `beforeAll` hook's `mkdir`. -/
theorem persist_contract (fsys : FileStore) (i : Nat)
    (l1 l2 : List SpeechEvent) (q : String) (hq : q ≠ timingPath i) :
    persist fsys i l2 (timingPath i) = some l2
    ∧ persist fsys i l2 q = fsys q
    ∧ persist (persist fsys i l1) i l2 = persist fsys i l2
    ∧ (sessionTrace2 i).filter isPersistAction = [Action.persist i]
    ∧ (sessionTrace2 i)[9]? = some (.waitFiles transcriptDir 2 45000)
    ∧ (sessionTrace2 i)[11]? = some .evalPullLog
    ∧ (sessionTrace2 i)[12]? = some (.persist i)
    ∧ Action.mkdirTesting ∈ beforeAllTrace2 := by
  refine ⟨by simp [persist], by simp [persist, hq], ?_, rfl, rfl, rfl, rfl, by decide⟩
  funext r
  by_cases hr : r = timingPath i
  · simp [persist, hr]
  · simp [persist, hr]

/-- Witness for `persist_contract` at index 0 with two concrete logs. -/
theorem persist_contract_witness :
    persist (fun _ => none) 0 [⟨"start", "hi", 7⟩] (timingPath 0)
        = some [⟨"start", "hi", 7⟩]
    ∧ persist (fun _ => none) 0 [⟨"start", "hi", 7⟩] "other"
        = (fun _ => (none : Option (List SpeechEvent))) "other"
    ∧ persist (persist (fun _ => none) 0 [⟨"end", "hi", 3⟩]) 0 [⟨"start", "hi", 7⟩]
        = persist (fun _ => none) 0 [⟨"start", "hi", 7⟩]
    ∧ (sessionTrace2 0).filter isPersistAction = [Action.persist 0]
    ∧ (sessionTrace2 0)[9]? = some (.waitFiles transcriptDir 2 45000)
    ∧ (sessionTrace2 0)[11]? = some .evalPullLog
    ∧ (sessionTrace2 0)[12]? = some (.persist 0)
    ∧ Action.mkdirTesting ∈ beforeAllTrace2 :=
  persist_contract (fun _ => none) 0 [⟨"end", "hi", 3⟩] [⟨"start", "hi", 7⟩]
    "other" (by decide)

/-- Store used in the C1 counterexample: session 0's log begins with an `end`
event at time 0 followed by a `start` at 1000, session 1's log is a single
`start` at 900. -/
def cexStore : FileStore :=
  fun q =>
    if q = timingPath 0 then some [⟨"end", "t", 0⟩, ⟨"start", "t", 1000⟩]
    else if q = timingPath 1 then some [⟨"start", "t", 900⟩]
    else none

/-- C1 counterexample: the comparator reads `timings[i][0].time`, the first
array element whatever its event type, not the first `start` event.  Here the
first-start timestamps are 1000 and 900 (difference 100 < 500, so the claimed
algorithm yields `concurrent`), but the code compares 0 with 900 and prints
`not concurrent`. -/
theorem compare_not_first_start :
    compareTiming cexStore = .ok "Speech to text and TTS not concurrent"
    ∧ specVerdict [⟨"end", "t", 0⟩, ⟨"start", "t", 1000⟩] [⟨"start", "t", 900⟩] 500
        = some "Speech to text and TTS concurrent" :=
  ⟨rfl, rfl⟩

/-- C1 (amended): the comparator takes the timestamp of the first event of
each log; when each log's first event is a `start` event — as holds for every
log the harness itself persists — this is its first-start timestamp, and the
verdict is `concurrent` exactly when the absolute difference is below the
threshold 500, agreeing with the spec's first-start algorithm. -/
theorem compare_first_event_verdict (fsys : FileStore)
    (e0 e1 : SpeechEvent) (r0 r1 : List SpeechEvent)
    (h0 : fsys (timingPath 0) = some (e0 :: r0))
    (h1 : fsys (timingPath 1) = some (e1 :: r1))
    (hs0 : e0.event = "start") (hs1 : e1.event = "start") :
    compareTiming fsys
        = .ok (if max e0.time e1.time - min e0.time e1.time < 500 then
                "Speech to text and TTS concurrent"
               else "Speech to text and TTS not concurrent")
    ∧ specVerdict (e0 :: r0) (e1 :: r1) 500
        = some (if max e0.time e1.time - min e0.time e1.time < 500 then
                "Speech to text and TTS concurrent"
               else "Speech to text and TTS not concurrent") := by
  constructor
  · simp [compareTiming, h0, h1]
  · have f0 : List.find? (fun e => e.event == "start") (e0 :: r0) = some e0 :=
      List.find?_cons_of_pos _ (by simp [hs0])
    have f1 : List.find? (fun e => e.event == "start") (e1 :: r1) = some e1 :=
      List.find?_cons_of_pos _ (by simp [hs1])
    simp [specVerdict, firstStartTime, f0, f1]

/-- Store holding the claim's first example: first-start timestamps 1000 and
1200. -/
def storeA : FileStore := fun q =>
  if q = timingPath 0 then some [⟨"start", "a", 1000⟩]
  else if q = timingPath 1 then some [⟨"start", "b", 1200⟩]
  else none

/-- Store holding the claim's second example: first-start timestamps 0 and
1000. -/
def storeB : FileStore := fun q =>
  if q = timingPath 0 then some [⟨"start", "a", 0⟩]
  else if q = timingPath 1 then some [⟨"start", "b", 1000⟩]
  else none

/-- Witness for `compare_first_event_verdict` on the claim's two examples:
timestamps 1000 and 1200 yield `concurrent`, 0 and 1000 yield
`not concurrent`. -/
theorem compare_first_event_verdict_witness :
    compareTiming storeA = .ok "Speech to text and TTS concurrent"
    ∧ compareTiming storeB = .ok "Speech to text and TTS not concurrent" := by
  constructor
  · have h := (compare_first_event_verdict storeA ⟨"start", "a", 1000⟩
      ⟨"start", "b", 1200⟩ [] [] rfl rfl rfl rfl).1
    simpa using h
  · have h := (compare_first_event_verdict storeB ⟨"start", "a", 0⟩
      ⟨"start", "b", 1000⟩ [] [] rfl rfl rfl rfl).1
    simpa using h

/-- C5: when an expected per-session timing log is absent, the comparator
fails with an error naming the missing session's artifact path and returns no
verdict; it never computes one from the remaining log alone. -/
theorem compare_missing_artifact (fsys : FileStore) (i : Nat) (hi : i < 2)
    (h : fsys (timingPath i) = none) :
    isVerdict (compareTiming fsys) = false
    ∧ ((compareTiming fsys = .error (.missingArtifact (timingPath 0))
          ∧ fsys (timingPath 0) = none)
       ∨ (compareTiming fsys = .error (.missingArtifact (timingPath 1))
          ∧ fsys (timingPath 1) = none)) := by
  rcases h0 : fsys (timingPath 0) with _ | t0
  · exact ⟨by simp [compareTiming, h0, isVerdict],
      Or.inl ⟨by simp [compareTiming, h0], rfl⟩⟩
  · have hi1 : i = 0 ∨ i = 1 := by omega
    rcases hi1 with rfl | rfl
    · rw [h0] at h
      cases h
    · exact ⟨by simp [compareTiming, h0, h, isVerdict],
        Or.inr ⟨by simp [compareTiming, h0, h], h⟩⟩

/-- Witness for `compare_missing_artifact`: no artifact was persisted at all. -/
theorem compare_missing_artifact_witness :
    isVerdict (compareTiming (fun _ => none)) = false
    ∧ ((compareTiming (fun _ => none)
            = .error (.missingArtifact (timingPath 0))
          ∧ (fun _ => (none : Option (List SpeechEvent))) (timingPath 0) = none)
       ∨ (compareTiming (fun _ => none)
            = .error (.missingArtifact (timingPath 1))
          ∧ (fun _ => (none : Option (List SpeechEvent))) (timingPath 1) = none)) :=
  compare_missing_artifact (fun _ => none) 0 (by omega) rfl

/-- C10: the comparator requires both loaded logs to be non-empty — an empty
log makes the first-element access fail with a TypeError and no verdict — and
any verdict it does produce depends only on the first event of each log. -/
theorem compare_requires_nonempty (fsys gsys : FileStore)
    (t0 t1 u0 u1 : List SpeechEvent)
    (hf0 : fsys (timingPath 0) = some t0) (hf1 : fsys (timingPath 1) = some t1)
    (hg0 : gsys (timingPath 0) = some u0) (hg1 : gsys (timingPath 1) = some u1)
    (hh0 : t0.head? = u0.head?) (hh1 : t1.head? = u1.head?) :
    ((t0 = [] ∨ t1 = []) → compareTiming fsys = .error .typeError)
    ∧ (isVerdict (compareTiming fsys) = true → t0 ≠ [] ∧ t1 ≠ [])
    ∧ compareTiming fsys = compareTiming gsys := by
  have key : ∀ (hsys : FileStore) (a b : List SpeechEvent),
      hsys (timingPath 0) = some a → hsys (timingPath 1) = some b →
      compareTiming hsys =
        (match a.head?, b.head? with
         | some x, some y =>
            .ok (if max x.time y.time - min x.time y.time < 500 then
                  "Speech to text and TTS concurrent"
                 else "Speech to text and TTS not concurrent")
         | _, _ => .error .typeError) := by
    intro hsys a b ha hb
    rcases a with _ | ⟨x, xs⟩ <;> rcases b with _ | ⟨y, ys⟩ <;>
      simp [compareTiming, ha, hb]
  have kf := key fsys t0 t1 hf0 hf1
  have kg := key gsys u0 u1 hg0 hg1
  refine ⟨?_, ?_, ?_⟩
  · intro hc
    rcases hc with rfl | rfl
    · rcases t1 with _ | ⟨y, ys⟩ <;> simp [kf]
    · rcases t0 with _ | ⟨x, xs⟩ <;> simp [kf]
  · intro hv
    rcases t0 with _ | ⟨x, xs⟩
    · rcases t1 with _ | ⟨y, ys⟩ <;>
        · rw [kf] at hv
          simp [isVerdict] at hv
    · rcases t1 with _ | ⟨y, ys⟩
      · rw [kf] at hv
        simp [isVerdict] at hv
      · exact ⟨by simp, by simp⟩
  · rw [kf, kg, hh0, hh1]

/-- Store with an empty log for session 0 and a one-event log for session 1. -/
def storeEmpty0 : FileStore := fun q =>
  if q = timingPath 0 then some []
  else if q = timingPath 1 then some [⟨"start", "b", 5⟩]
  else none

/-- Witness for `compare_requires_nonempty`: session 0 persisted an empty log,
session 1 a one-event log; a second store agrees on both first elements. -/
theorem compare_requires_nonempty_witness :
    (((([] : List SpeechEvent) = []) ∨ ([⟨"start", "b", 5⟩] : List SpeechEvent) = [])
        → compareTiming storeEmpty0 = .error .typeError)
    ∧ (isVerdict (compareTiming storeEmpty0) = true
        → ([] : List SpeechEvent) ≠ [] ∧ ([⟨"start", "b", 5⟩] : List SpeechEvent) ≠ [])
    ∧ compareTiming storeEmpty0 = compareTiming storeEmpty0 :=
  compare_requires_nonempty storeEmpty0 storeEmpty0 [] [⟨"start", "b", 5⟩]
    [] [⟨"start", "b", 5⟩] rfl rfl rfl rfl rfl rfl

end VoiceTest
